import Mathlib

/-!
Verification of the ultradns client library (src/ultradns/client.py, with
src/ultradns/exceptions.py and the youltradns variant) against its
specification.  The Python code is shallowly embedded: `response.json()`
results become a `Json` value, raised exceptions become a `DNSException`
value, the mutable client fields `_transaction` / `_transaction_queries`
become an explicit `ClientState`, and the network is an oracle list of
`HttpResponse`s consumed one per issued HTTP request.
-/

namespace UltraDNS

/-- A decoded JSON value, the result of `response.json()` in the Python code. -/
inductive Json where
  | null
  | bool (b : Bool)
  | num (n : Int)
  | str (s : String)
  | arr (xs : List Json)
  | obj (fields : List (String × Json))

/-- Python `str()` of a decoded JSON value, as used by the `'%s'` formatting in
`_handle_error`.  Scalars follow Python exactly (`str(9999) = "9999"`,
`str('x') = "x"`, `str(None) = "None"`, `str(True) = "True"`); the `repr`-style
rendering of containers is abstracted, since no decoded error payload in the
claims carries a container `errorCode`/`errorMessage`. -/
def pyStr : Json → String
  | .str s => s
  | .num n => toString n
  | .null => "None"
  | .bool b => if b then "True" else "False"
  | .arr _ => "<list>"
  | .obj _ => "<dict>"

/-- Python `dict.get(key)` / `dict[key]` lookup on a JSON object: the value of
the first field named `k`, if any.  Returns `none` for non-objects. -/
def jsonLookup : Json → String → Option Json
  | .obj fields, k => (fields.find? (fun p => p.fst = k)).map Prod.snd
  | _, _ => none

/-- Python truthiness of a decoded JSON value (`None`, `False`, `0`, `''`,
`[]`, `{}` are falsy). -/
def jsonTruthy : Json → Bool
  | .null => false
  | .bool b => b
  | .num n => n ≠ 0
  | .str s => s ≠ ""
  | .arr xs => ¬ xs.isEmpty
  | .obj fields => ¬ fields.isEmpty

/-- Python `==` between a decoded JSON value and an `int` literal
(`json_body.get('errorCode') == 60001`).  In Python `True == 1`, hence the
`bool` case. -/
def jsonEqInt (j : Json) (n : Int) : Bool :=
  match j with
  | .num m => m = n
  | .bool b => (if b then (1 : Int) else 0) = n
  | _ => false

/-- An HTTP response as the Python code observes it: `status_code`,
the result of `response.json()` (`none` when the body is not parseable JSON,
in which case `response.json()` raises `ValueError`), and `response.content`
as a string. -/
structure HttpResponse where
  status : Nat
  body : Option Json
  content : String

/-- The exceptions the library raises (src/ultradns/exceptions.py), plus the
Python-level `ValueError` escaping from `response.json()` and a `pythonError`
placeholder for `KeyError`/`IndexError`/`TypeError` on malformed payloads. -/
inductive DNSException where
  | dnsError (msg : String)
  | zoneAlreadyExists (msg : String)
  | zoneNotFound (msg : String)
  | authenticationError
  | permissionDenied (msg : String)
  | recordAlreadyExists (msg : String)
  | recordsNotFound (msg : String)
  | httpLevelError (msg : String)
  | transactionError (errors : List String)
  | noActiveTransaction
  | transactionAlreadyInProgress
  | emptyTransaction
  | getInsideTransaction
  | valueError
  | pythonError
  | envExhausted
deriving DecidableEq, Repr

def ERR_CODE_AUTH_TOKEN_EXPIRED : Int := 60001
def ERR_CODE_ZONE_ALREADY_EXISTS : Int := 1802
def ERR_CODE_ZONE_NOT_FOUND : Int := 1801
def ERR_CODE_PERMISSION_DENIED : Int := 8001
def ERR_RECORDS_NOT_FOUND : Int := 70002
def ERR_RECORD_ALREADY_EXISTS : Int := 2111
def ERR_RECORD_NOT_FOUND : Int := 56001
def ERR_HTTP : Int := 111222333

/-- The module-level `exceptions_map` dict of src/ultradns/client.py:
wire error code → exception constructor. -/
def exceptions_map : List (Int × (String → DNSException)) :=
  [(ERR_CODE_PERMISSION_DENIED, .permissionDenied),
   (ERR_CODE_ZONE_NOT_FOUND, .zoneNotFound),
   (ERR_CODE_ZONE_ALREADY_EXISTS, .zoneAlreadyExists),
   (ERR_RECORD_ALREADY_EXISTS, .recordAlreadyExists),
   (ERR_RECORDS_NOT_FOUND, .recordsNotFound),
   (ERR_RECORD_NOT_FOUND, .recordsNotFound),
   (ERR_HTTP, .httpLevelError)]

/-- `error_code in exceptions_map` followed by `exceptions_map[error_code]`:
the constructor for a decoded `errorCode` value, if the code is a mapped
integer. -/
def exceptionsMapLookup (code : Json) : Option (String → DNSException) :=
  match code with
  | .num n => (exceptions_map.find? (fun p => p.fst = n)).map Prod.snd
  | _ => none

/-- `ErrorHandlingMixin._is_error`: `status_code >= 400`. -/
def is_error (r : HttpResponse) : Bool :=
  400 ≤ r.status

/-- `ErrorHandlingMixin._handle_error` of src/ultradns/client.py, returning the
exception it raises.  `response.json()` raising `ValueError` on an unparseable
body is the `.valueError` result; a parseable body that is a list yields
element 0's `errorCode`/`errorMessage` (a `KeyError`/`IndexError` on a
malformed element is `.pythonError`); a dict yields its own
`errorCode`/`errorMessage`; any other JSON value takes the `else` branch that
builds the `ERR_HTTP` message from the triple-quoted template — which begins
with a newline — and the mapped code raises the matching exception while an
unmapped one raises `DNSError('%s: %s' % (error_code, error_msg))`. -/
def handle_error (r : HttpResponse) : DNSException :=
  match r.body with
  | none => .valueError
  | some json_body =>
    let codeMsg : Option (Json × Json) :=
      match json_body with
      | .arr xs =>
        match xs with
        | [] => none
        | x :: _ =>
          match jsonLookup x "errorCode", jsonLookup x "errorMessage" with
          | some c, some m => some (c, m)
          | _, _ => none
      | .obj _ =>
        match jsonLookup json_body "errorCode", jsonLookup json_body "errorMessage" with
        | some c, some m => some (c, m)
        | _, _ => none
      | _ =>
        some (.num ERR_HTTP,
          .str ("\nHTTP-level error. HTTP code: " ++ toString r.status ++
                "; response body: " ++ r.content))
    match codeMsg with
    | none => .pythonError
    | some (error_code, error_msg) =>
      match exceptionsMapLookup error_code with
      | some mk => mk (pyStr error_msg)
      | none => .dnsError (pyStr error_code ++ ": " ++ pyStr error_msg)

/-- `UltraDNSAuthentication.is_auth_token_expired` of src/ultradns/client.py.
For a 401 it calls `response.json()` — which raises `ValueError` on an
unparseable body (`.error .valueError` here) — and then tests
`isinstance(json_body, dict) and json_body.get('errorCode') == 60001`;
for any other status it returns `False` without touching the body. -/
def is_auth_token_expired (r : HttpResponse) : Except DNSException Bool :=
  if r.status = 401 then
    match r.body with
    | none => .error .valueError
    | some json_body =>
      .ok (match json_body with
           | .obj _ =>
             match jsonLookup json_body "errorCode" with
             | some c => jsonEqInt c ERR_CODE_AUTH_TOKEN_EXPIRED
             | none => false
           | _ => false)
  else .ok false

/-- Maps each element of `response.json()['errors']` to `str(e['errorMessage'])`;
`none` when some element is not a dict with that key (Python `KeyError`). -/
def collectErrorMessages : List Json → Option (List String)
  | [] => some []
  | e :: es =>
    match jsonLookup e "errorMessage" with
    | some m => (collectErrorMessages es).map (fun ms => pyStr m :: ms)
    | none => none

/-- `UltraDNSClient._handle_transaction_error`: raises
`TransactionError([e['errorMessage'] for e in response.json()['errors']])`. -/
def handle_transaction_error (r : HttpResponse) : DNSException :=
  match r.body with
  | none => .valueError
  | some json_body =>
    match jsonLookup json_body "errors" with
    | some (.arr es) =>
      match collectErrorMessages es with
      | some msgs => .transactionError msgs
      | none => .pythonError
    | _ => .pythonError

/-- A Python value returned by `_do_call`: `None` for a 204 response, the
decoded JSON body on success, or `True` when the successful body is not
parseable JSON. -/
inductive PyValue where
  | none
  | bool (b : Bool)
  | json (j : Json)

/-- The final `try: return response.json() / except ValueError: return True`
of `_do_call`. -/
def responseJsonOrTrue (r : HttpResponse) : PyValue :=
  match r.body with
  | some j => .json j
  | Option.none => .bool true

/-- One HTTP request issued through `requests.request`: the method string as
passed (the `requests` library upper-cases it on the wire), the url path
appended to the base url, and the `data` payload as the JSON value serialized
by `json.dumps` (`none` when Python passes `data=None`, i.e. no body;
`some .null` when it passes the serialized `None`). -/
structure NetRequest where
  method : String
  url : String
  body : Option Json

/-- The observable outcome of one `_do_call`: its return value or raised
exception, the oracle responses left unconsumed, the HTTP requests issued
(in order), and how many times `refresh_auth_token` was invoked. -/
structure DoCallResult where
  result : Except DNSException PyValue
  env : List HttpResponse
  requests : List NetRequest
  refreshes : Nat

/-- `UltraDNSClient._do_call` of src/ultradns/client.py (lines 378-401),
modelled for an already-authenticated client (every claim concerns
post-login behaviour, so the lazy `authenticate()` of lines 379-380 is a
no-op).  The network is the oracle list: each issued request consumes one
response.  A 204 returns `None`; otherwise, for status ≥ 400, the
token-expiry check runs first and on expiry the code refreshes and then
**recursively re-enters `_do_call`** — the model mirrors that self-call
exactly, consuming further oracle responses; `refreshOk` tells whether
`refresh_auth_token` succeeds (on failure it raises `AuthenticationError`).
Non-expiry errors go through `_handle_transaction_error` when
`self._transaction` is set, else through `_handle_error`.  An exhausted
oracle is the modelling artefact `.envExhausted`. -/
def «_do_call» (transaction : Bool) (refreshOk : Bool) (method url : String)
    (data : Option Json) :
    List HttpResponse → DoCallResult
  | [] => ⟨.error .envExhausted, [], [], 0⟩
  | response :: env =>
    let req : NetRequest := ⟨method, url, data⟩
    if response.status = 204 then
      ⟨.ok .none, env, [req], 0⟩
    else if is_error response then
      match is_auth_token_expired response with
      | .error e => ⟨.error e, env, [req], 0⟩
      | .ok true =>
        if refreshOk then
          let rest := «_do_call» transaction refreshOk method url data env
          ⟨rest.result, rest.env, req :: rest.requests, rest.refreshes + 1⟩
        else
          ⟨.error .authenticationError, env, [req], 1⟩
      | .ok false =>
        if transaction then
          ⟨.error (handle_transaction_error response), env, [req], 0⟩
        else
          ⟨.error (handle_error response), env, [req], 0⟩
    else
      ⟨.ok (responseJsonOrTrue response), env, [req], 0⟩

/-- A queued pending operation, `{'method': ..., 'uri': ..., 'body': ...}`. -/
structure TxQuery where
  method : String
  uri : String
  body : Json

/-- The mutable client fields `_transaction` and `_transaction_queries`. -/
structure ClientState where
  transaction : Bool
  transaction_queries : List TxQuery

/-- `UltraDNSClient._get_transaction_query_body`:
`{'method': method.upper(), 'uri': url, 'body': data or {}}` — Python
`data or {}` replaces a falsy `data` (`None`, `{}`, ...) by the empty dict. -/
def get_transaction_query_body (method url : String) (data : Option Json) : TxQuery :=
  ⟨method.toUpper, url,
   match data with
   | none => .obj []
   | some d => if jsonTruthy d then d else .obj []⟩

/-- The JSON serialization of one queued operation inside
`json.dumps(self._transaction_queries)`. -/
def txQueryToJson (q : TxQuery) : Json :=
  .obj [("method", .str q.method), ("uri", .str q.uri), ("body", q.body)]

/-- Outcome of one client-level call: result or exception, the client state
afterwards, the unconsumed oracle responses, and the HTTP requests issued. -/
structure CallOutcome where
  result : Except DNSException PyValue
  state : ClientState
  env : List HttpResponse
  requests : List NetRequest

/-- `UltraDNSClient._request` (lines 368-373): with a transaction open the
operation is appended to `_transaction_queries` and the method falls off the
end, returning `None`; otherwise it dispatches through `_do_call` with
`data=json.dumps(data)` (and `json.dumps(None)` serializes to `null`). -/
def «_request» (s : ClientState) (refreshOk : Bool) (method url : String)
    (data : Option Json) (env : List HttpResponse) : CallOutcome :=
  if s.transaction then
    { result := .ok .none,
      state := { s with transaction_queries :=
        s.transaction_queries ++ [get_transaction_query_body method url data] },
      env := env, requests := [] }
  else
    let d := «_do_call» false refreshOk method url (some (data.getD .null)) env
    { result := d.result, state := s, env := d.env, requests := d.requests }

/-- `UltraDNSClient._get` (lines 354-357): raises `GetInsideTransactionError`
while a transaction is open, else dispatches a GET (query params carry no
claim content and are not recorded). -/
def «_get» (s : ClientState) (refreshOk : Bool) (url : String)
    (env : List HttpResponse) : CallOutcome :=
  if s.transaction then
    { result := .error .getInsideTransaction, state := s, env := env, requests := [] }
  else
    let d := «_do_call» false refreshOk "GET" url none env
    { result := d.result, state := s, env := d.env, requests := d.requests }

/-- `UltraDNSClient._post`. -/
def «_post» (s : ClientState) (refreshOk : Bool) (url : String) (data : Json)
    (env : List HttpResponse) : CallOutcome :=
  «_request» s refreshOk "POST" url (some data) env

/-- `UltraDNSClient._put`. -/
def «_put» (s : ClientState) (refreshOk : Bool) (url : String) (data : Json)
    (env : List HttpResponse) : CallOutcome :=
  «_request» s refreshOk "PUT" url (some data) env

/-- `UltraDNSClient._delete`: `self._request('DELETE', url)` with no data. -/
def «_delete» (s : ClientState) (refreshOk : Bool) (url : String)
    (env : List HttpResponse) : CallOutcome :=
  «_request» s refreshOk "DELETE" url none env

/-- `UltraDNSClient.start_transaction`. -/
def start_transaction (s : ClientState) : Except DNSException Unit × ClientState :=
  if s.transaction then (.error .transactionAlreadyInProgress, s)
  else (.ok (), { transaction := true, transaction_queries := [] })

/-- `UltraDNSClient._end_transaction`. -/
def «_end_transaction» (s : ClientState) : Except DNSException Unit × ClientState :=
  if s.transaction then (.ok (), { transaction := false, transaction_queries := [] })
  else (.error .noActiveTransaction, s)

/-- `UltraDNSClient._run_transaction_queries` (lines 403-410): one `_do_call`
with method `'post'`, uri `'/v1/batch'` and `json.dumps(self._transaction_queries)`
as body, issued while `self._transaction` is still set; the
`finally: self._end_transaction()` runs whether or not the call raised, and an
exception raised by the `finally` block itself replaces the pending result. -/
def «_run_transaction_queries» (s : ClientState) (refreshOk : Bool)
    (env : List HttpResponse) : CallOutcome :=
  let d := «_do_call» s.transaction refreshOk "post" "/v1/batch"
    (some (.arr (s.transaction_queries.map txQueryToJson))) env
  let fin := «_end_transaction» s
  { result := match fin.1 with
              | .error e => .error e
              | .ok _ => d.result,
    state := fin.2, env := d.env, requests := d.requests }

/-- `UltraDNSClient.commit_transaction` (lines 309-317). -/
def commit_transaction (s : ClientState) (refreshOk : Bool)
    (env : List HttpResponse) : CallOutcome :=
  if ¬ s.transaction then
    { result := .error .noActiveTransaction, state := s, env := env, requests := [] }
  else if s.transaction_queries.isEmpty then
    { result := .error .emptyTransaction, state := s, env := env, requests := [] }
  else
    «_run_transaction_queries» s refreshOk env

/-- `UltraDNSClient.rollback_transaction`. -/
def rollback_transaction (s : ClientState) : Except DNSException Unit × ClientState :=
  if s.transaction then «_end_transaction» s
  else (.error .noActiveTransaction, s)

/-- The uri built by `get_records`: `'/v1/zones/' + zone_name + '/rrsets'`,
plus `'/' + rtype` when `rtype` is truthy (`if rtype:` — `None` and the empty
string are falsy). -/
def recordsUri (zone_name : String) (rtype : Option String) : String :=
  let uri := "/v1/zones/" ++ zone_name ++ "/rrsets"
  match rtype with
  | some t => if t ≠ "" then uri ++ "/" ++ t else uri
  | none => uri

/-- `UltraDNSClient.get_records` (lines 173-203): the whole of
`return self._get(uri, params)['rrSets']` sits in a `try` whose
`except RecordsNotFoundError: return []` swallows that one error class;
a malformed success body makes the `['rrSets']` subscript raise
(`KeyError`/`TypeError`, here `.pythonError`), and every other exception
propagates. -/
def get_records (s : ClientState) (refreshOk : Bool) (zone_name : String)
    (rtype : Option String) (env : List HttpResponse) : CallOutcome :=
  let c := «_get» s refreshOk (recordsUri zone_name rtype) env
  match c.result with
  | .ok v =>
    match v with
    | .json j =>
      match jsonLookup j "rrSets" with
      | some rr => { c with result := .ok (.json rr) }
      | none => { c with result := .error .pythonError }
    | _ => { c with result := .error .pythonError }
  | .error (.recordsNotFound _) => { c with result := .ok (.json (.arr [])) }
  | .error e => { c with result := .error e }

/-- `UltraDNSClient.get_account_details`: `self._get('/v1/accounts')`. -/
def get_account_details (s : ClientState) (refreshOk : Bool)
    (env : List HttpResponse) : CallOutcome :=
  «_get» s refreshOk "/v1/accounts" env

/-- The `_account_name` property:
`self.get_account_details()[u'accounts'][0][u'accountName']` — note that it
issues a GET through `_get`, so inside an open transaction it raises
`GetInsideTransactionError`.  Malformed subscripts are `.pythonError`. -/
def «_account_name» (s : ClientState) (refreshOk : Bool)
    (env : List HttpResponse) :
    Except DNSException Json × ClientState × List HttpResponse × List NetRequest :=
  let c := get_account_details s refreshOk env
  match c.result with
  | .error e => (.error e, c.state, c.env, c.requests)
  | .ok v =>
    match v with
    | .json j =>
      match jsonLookup j "accounts" with
      | some (.arr (a :: _)) =>
        match jsonLookup a "accountName" with
        | some nm => (.ok nm, c.state, c.env, c.requests)
        | none => (.error .pythonError, c.state, c.env, c.requests)
      | _ => (.error .pythonError, c.state, c.env, c.requests)
    | _ => (.error .pythonError, c.state, c.env, c.requests)

/-- `UltraDNSClient.create_primary_zone` (lines 119-131): builds
`zone_properties` — whose `'accountName'` entry evaluates the
`self._account_name` property, a GET, **before** anything is posted — then
posts the zone data; the method body has no `return`, so it yields `None`
on success. -/
def create_primary_zone (s : ClientState) (refreshOk : Bool) (zone_name : String)
    (env : List HttpResponse) : CallOutcome :=
  match «_account_name» s refreshOk env with
  | (.error e, s2, env2, reqs) =>
    { result := .error e, state := s2, env := env2, requests := reqs }
  | (.ok acct, s2, env2, reqs) =>
    let zone_properties : Json :=
      .obj [("name", .str zone_name), ("accountName", acct), ("type", .str "PRIMARY")]
    let primary_zone_info : Json :=
      .obj [("forceImport", .bool true), ("createType", .str "NEW")]
    let zone_data : Json :=
      .obj [("properties", zone_properties), ("primaryCreateInfo", primary_zone_info)]
    let c := «_post» s2 refreshOk "/v1/zones" zone_data env2
    { result := match c.result with
                | .error e => .error e
                | .ok _ => .ok .none,
      state := c.state, env := c.env, requests := reqs ++ c.requests }

/-- `UltraDNSClient.delete_zone`: `self._delete('/v1/zones/' + zone_name)`
with no `return`, so `None` on success. -/
def delete_zone (s : ClientState) (refreshOk : Bool) (zone_name : String)
    (env : List HttpResponse) : CallOutcome :=
  let c := «_delete» s refreshOk ("/v1/zones/" ++ zone_name) env
  { c with result := match c.result with
                     | .error e => .error e
                     | .ok _ => .ok .none }

/-- `UltraDNSClient.create_record` (lines 205-236): wraps a non-list `rdata`
in a list, adds `'ttl'` only when `ttl` is truthy (`if ttl:`), posts, and
returns `None` on success (no `return`). -/
def create_record (s : ClientState) (refreshOk : Bool)
    (zone_name rtype owner_name : String) (rdata : Json) (ttl : Option Json)
    (env : List HttpResponse) : CallOutcome :=
  let rdata' := match rdata with
                | .arr _ => rdata
                | _ => .arr [rdata]
  let record : Json := .obj ([("rdata", rdata')] ++
    (match ttl with
     | some t => if jsonTruthy t then [("ttl", t)] else []
     | none => []))
  let c := «_post» s refreshOk
    ("/v1/zones/" ++ zone_name ++ "/rrsets/" ++ rtype ++ "/" ++ owner_name)
    record env
  { c with result := match c.result with
                     | .error e => .error e
                     | .ok _ => .ok .none }

/-- `UltraDNSClient.edit_record` (lines 238-269): wraps a non-list `rdata`,
adds `'ttl'` whenever `ttl is not None`, and **returns** the `_put` result. -/
def edit_record (s : ClientState) (refreshOk : Bool)
    (zone_name rtype owner_name : String) (rdata : Json) (ttl : Option Json)
    (env : List HttpResponse) : CallOutcome :=
  let rdata' := match rdata with
                | .arr _ => rdata
                | _ => .arr [rdata]
  let record : Json := .obj ([("rdata", rdata')] ++
    (match ttl with
     | some t => [("ttl", t)]
     | none => []))
  «_put» s refreshOk
    ("/v1/zones/" ++ zone_name ++ "/rrsets/" ++ rtype ++ "/" ++ owner_name)
    record env

/-- `UltraDNSClient.delete_record`: returns the `_delete` result. -/
def delete_record (s : ClientState) (refreshOk : Bool)
    (zone_name rtype owner_name : String) (env : List HttpResponse) : CallOutcome :=
  «_delete» s refreshOk
    ("/v1/zones/" ++ zone_name ++ "/rrsets/" ++ rtype ++ "/" ++ owner_name) env

/-- The fresh client state set up in `__init__`:
`self._transaction = False; self._transaction_queries = []`. -/
def initial_state : ClientState :=
  ⟨false, []⟩

/-- One public client operation that can touch the transaction state. -/
inductive ClientOp where
  | startTx
  | write (method url : String) (data : Option Json)
  | commitTx
  | rollbackTx
  | readCall (url : String)

/-- The client state after one operation (error paths included: an operation
that raises leaves whatever state the code left behind). -/
def stepState (refreshOk : Bool) (env : List HttpResponse) (s : ClientState) :
    ClientOp → ClientState
  | .startTx => (start_transaction s).2
  | .write m u d => («_request» s refreshOk m u d env).state
  | .commitTx => (commit_transaction s refreshOk env).state
  | .rollbackTx => (rollback_transaction s).2
  | .readCall u => («_get» s refreshOk u env).state

/-- The spec's data-model invariant: the pending-operation queue is non-empty
only while the transaction flag is set. -/
def queueInv (s : ClientState) : Prop :=
  s.transaction_queries ≠ [] → s.transaction = true

/-- One write call as issued by the caller: method, uri and optional body. -/
structure WriteCall where
  method : String
  url : String
  data : Option Json

/-- Issue a sequence of write calls through `_request`, threading the client
state and the response oracle and collecting every HTTP request issued. -/
def runWrites (refreshOk : Bool) :
    ClientState → List HttpResponse → List WriteCall →
      ClientState × List HttpResponse × List NetRequest
  | s, env, [] => (s, env, [])
  | s, env, w :: ws =>
    let c := «_request» s refreshOk w.method w.url w.data env
    let rest := runWrites refreshOk c.state c.env ws
    (rest.1, rest.2.1, c.requests ++ rest.2.2)

/-- A token-expiry response: 401 with JSON-object body whose `errorCode`
is 60001. -/
def expiredTokenResponse : HttpResponse :=
  ⟨401, some (.obj [("errorCode", .num 60001), ("errorMessage", .str "expired")]), ""⟩

/-- A plain successful response. -/
def okResponse : HttpResponse :=
  ⟨200, some (.obj [("ok", .bool true)]), "{}"⟩

/-!  Theorems about the claims. -/

/-- On a token-expiry response (with refresh succeeding), `_do_call` refreshes
once more than on the remaining oracle and issues the request again. -/
theorem do_call_expired_refreshes (t : Bool) (m u : String) (d : Option Json)
    (env : List HttpResponse) :
    («_do_call» t true m u d (expiredTokenResponse :: env)).refreshes =
      («_do_call» t true m u d env).refreshes + 1 := rfl

/-- On a token-expiry response, the issued requests are the original request
followed by those of the retry. -/
theorem do_call_expired_requests (t : Bool) (m u : String) (d : Option Json)
    (env : List HttpResponse) :
    («_do_call» t true m u d (expiredTokenResponse :: env)).requests =
      ⟨m, u, d⟩ :: («_do_call» t true m u d env).requests := rfl

/-- C1.  The dispatcher's token-expiry retry is NOT bounded at one per call:
on an oracle that answers the first `n` requests with 401/60001 token-expiry
responses (refresh succeeding each time) and then succeeds, `_do_call`
performs `n` refresh calls and `n + 1` HTTP requests.  At `n = 2` the retried
request again yields 401/60001 and the code refreshes and retries a second
time, contradicting the claimed bound of one refresh-and-retry per call; on a
persistently expiring token the recursion never returns. -/
theorem token_refresh_retry_is_unbounded :
    ∀ n : Nat,
      («_do_call» false true "GET" "/v1/status" none
        (List.replicate n expiredTokenResponse ++ [okResponse])).refreshes = n ∧
      («_do_call» false true "GET" "/v1/status" none
        (List.replicate n expiredTokenResponse ++ [okResponse])).requests.length
        = n + 1 := by
  intro n
  induction n with
  | zero => exact ⟨rfl, rfl⟩
  | succ k ih =>
    rw [List.replicate_succ, List.cons_append]
    exact ⟨by rw [do_call_expired_refreshes, ih.1],
           by rw [do_call_expired_requests, List.length_cons, ih.2]⟩

/-- C2.  At the failing input of the claim (status 504, empty body):
if `response.json()` yields the empty string — exactly how the repository's
own test mocks this case — `_handle_error` raises `HTTPLevelError` whose
message starts with a newline, i.e. `"\nHTTP-level error. HTTP code: 504;
response body: "`, not the claimed exact message without the newline; and if
the body is truly unparseable JSON, `response.json()` raises `ValueError`
before any `HTTPLevelError` can be synthesized. -/
theorem http_level_error_message_has_leading_newline :
    handle_error ⟨504, some (.str ""), ""⟩ =
      .httpLevelError "\nHTTP-level error. HTTP code: 504; response body: " ∧
    handle_error ⟨504, some (.str ""), ""⟩ ≠
      .httpLevelError "HTTP-level error. HTTP code: 504; response body: " ∧
    handle_error ⟨504, none, ""⟩ = .valueError :=
  ⟨rfl, by decide, rfl⟩

/-- C4.  The decoded-error mapping: wire code 1801 raises ZoneNotFoundError,
1802 ZoneAlreadyExistsError, 8001 PermissionDeniedError, 70002 and 56001 both
RecordsNotFoundError (also when the payload arrives as a one-element JSON
array), and an unmapped code such as 9999 raises the generic
`DNSError('<code>: <errorMessage>')`. -/
theorem error_code_table_mapping :
    ∀ (st : Nat) (content msg : String),
      handle_error ⟨st, some (.obj [("errorCode", .num 1801),
        ("errorMessage", .str msg)]), content⟩ = .zoneNotFound msg ∧
      handle_error ⟨st, some (.obj [("errorCode", .num 1802),
        ("errorMessage", .str msg)]), content⟩ = .zoneAlreadyExists msg ∧
      handle_error ⟨st, some (.obj [("errorCode", .num 8001),
        ("errorMessage", .str msg)]), content⟩ = .permissionDenied msg ∧
      handle_error ⟨st, some (.obj [("errorCode", .num 70002),
        ("errorMessage", .str msg)]), content⟩ = .recordsNotFound msg ∧
      handle_error ⟨st, some (.obj [("errorCode", .num 56001),
        ("errorMessage", .str msg)]), content⟩ = .recordsNotFound msg ∧
      handle_error ⟨st, some (.arr [.obj [("errorCode", .num 70002),
        ("errorMessage", .str msg)]]), content⟩ = .recordsNotFound msg ∧
      handle_error ⟨st, some (.obj [("errorCode", .num 9999),
        ("errorMessage", .str msg)]), content⟩ =
          .dnsError ("9999: " ++ msg) :=
  fun _ _ _ => ⟨rfl, rfl, rfl, rfl, rfl, rfl, rfl⟩

/-- C5.  Committing an open transaction with a non-empty queue clears both the
queue and the active flag, whatever the oracle answers and whether or not the
batch call raises: the `finally: self._end_transaction()` always runs. -/
theorem commit_clears_state_regardless_of_batch_outcome :
    ∀ (s : ClientState) (refreshOk : Bool) (env : List HttpResponse),
      s.transaction = true → s.transaction_queries ≠ [] →
      (commit_transaction s refreshOk env).state = ⟨false, []⟩ := by
  intro s rOk env ht hq
  simp [commit_transaction, ht, hq, «_run_transaction_queries», «_end_transaction»]

/-- Witness for C5 at a concrete open, non-empty state and an empty oracle
(so the batch call itself errors): the state is still cleared. -/
theorem commit_clears_state_witness :
    (⟨true, [⟨"POST", "/v1/zones", Json.obj []⟩]⟩ : ClientState).transaction = true ∧
    (⟨true, [⟨"POST", "/v1/zones", Json.obj []⟩]⟩ : ClientState).transaction_queries ≠ [] ∧
    (commit_transaction ⟨true, [⟨"POST", "/v1/zones", Json.obj []⟩]⟩ true []).state =
      ⟨false, []⟩ :=
  ⟨rfl, List.cons_ne_nil _ _,
   commit_clears_state_regardless_of_batch_outcome _ true [] rfl (List.cons_ne_nil _ _)⟩

/-- C6.  Commit error paths fail fast: on an open transaction with an empty
queue, `commit_transaction` raises `EmptyTransactionError` with no network
call and the state (still open) and oracle untouched; on an idle client it
raises `NoActiveTransactionError`, likewise without side effects. -/
theorem commit_error_paths_fail_fast :
    ∀ (s : ClientState) (refreshOk : Bool) (env : List HttpResponse),
      (s.transaction = true → s.transaction_queries = [] →
        commit_transaction s refreshOk env =
          ⟨.error .emptyTransaction, s, env, []⟩) ∧
      (s.transaction = false →
        commit_transaction s refreshOk env =
          ⟨.error .noActiveTransaction, s, env, []⟩) := by
  intro s rOk env
  constructor
  · intro ht hq
    simp [commit_transaction, ht, hq]
  · intro ht
    simp [commit_transaction, ht]

/-- Witness for C6: both failing commits at concrete states. -/
theorem commit_error_paths_witness :
    (⟨true, []⟩ : ClientState).transaction = true ∧
    (⟨true, []⟩ : ClientState).transaction_queries = [] ∧
    (⟨false, []⟩ : ClientState).transaction = false ∧
    commit_transaction ⟨true, []⟩ true [okResponse] =
      ⟨.error .emptyTransaction, ⟨true, []⟩, [okResponse], []⟩ ∧
    commit_transaction ⟨false, []⟩ true [okResponse] =
      ⟨.error .noActiveTransaction, ⟨false, []⟩, [okResponse], []⟩ :=
  ⟨rfl, rfl, rfl,
   (commit_error_paths_fail_fast ⟨true, []⟩ true [okResponse]).1 rfl rfl,
   (commit_error_paths_fail_fast ⟨false, []⟩ true [okResponse]).2 rfl⟩

/-- C7.  "The queue is non-empty only while the transaction flag is true" is
an inductive invariant: it holds of the fresh client and is preserved by
start, write-enqueue, commit, rollback and reads, error paths included. -/
theorem queue_nonempty_implies_active_invariant :
    queueInv initial_state ∧
    ∀ (refreshOk : Bool) (env : List HttpResponse) (s : ClientState) (op : ClientOp),
      queueInv s → queueInv (stepState refreshOk env s op) := by
  constructor
  · intro h
    exact absurd rfl h
  · intro rOk env s op hs
    cases op with
    | startTx =>
      by_cases ht : s.transaction = true
      · simpa [stepState, start_transaction, ht] using hs
      · simp [stepState, start_transaction, ht, queueInv]
    | write m u d =>
      by_cases ht : s.transaction = true
      · intro _
        simp [stepState, «_request», ht]
      · simpa [stepState, «_request», ht] using hs
    | commitTx =>
      by_cases ht : s.transaction = true
      · by_cases hq : s.transaction_queries.isEmpty
        · simpa [stepState, commit_transaction, ht, hq] using hs
        · simp [stepState, commit_transaction, ht, hq,
            «_run_transaction_queries», «_end_transaction», queueInv]
      · simpa [stepState, commit_transaction, ht] using hs
    | rollbackTx =>
      by_cases ht : s.transaction = true
      · simp [stepState, rollback_transaction, ht, «_end_transaction», queueInv]
      · simpa [stepState, rollback_transaction, ht] using hs
    | readCall u =>
      by_cases ht : s.transaction = true
      · simpa [stepState, «_get», ht] using hs
      · simpa [stepState, «_get», ht] using hs

/-- Witness for C7: the invariant after a concrete enqueue on an open state. -/
theorem queue_invariant_witness :
    queueInv ⟨true, []⟩ ∧
    queueInv (stepState true [] ⟨true, []⟩ (.write "POST" "/v1/zones" none)) :=
  ⟨fun _ => rfl,
   queue_nonempty_implies_active_invariant.2 true [] ⟨true, []⟩
     (.write "POST" "/v1/zones" none) (fun _ => rfl)⟩

/-- C8.  A GET-style read issued while a transaction is open raises
`GetInsideTransactionError` at once: no request is made and the state and
oracle are untouched. -/
theorem read_inside_transaction_fails_fast :
    ∀ (s : ClientState) (refreshOk : Bool) (url : String) (env : List HttpResponse),
      s.transaction = true →
      «_get» s refreshOk url env = ⟨.error .getInsideTransaction, s, env, []⟩ := by
  intro s rOk url env ht
  simp [«_get», ht]

/-- Witness for C8 at a concrete open state. -/
theorem read_inside_transaction_witness :
    (⟨true, []⟩ : ClientState).transaction = true ∧
    «_get» ⟨true, []⟩ true "/v1/status" [okResponse] =
      ⟨.error .getInsideTransaction, ⟨true, []⟩, [okResponse], []⟩ :=
  ⟨rfl, read_inside_transaction_fails_fast ⟨true, []⟩ true "/v1/status" [okResponse] rfl⟩

/-- C9.  `get_records` — for any `rtype`, i.e. both the unfiltered and the
filtered-by-type listing — turns a `RecordsNotFoundError` raised by the
dispatcher into the empty list, while every other error propagates to the
caller unchanged. -/
theorem get_records_swallows_records_not_found :
    ∀ (s : ClientState) (refreshOk : Bool) (zone_name : String)
      (rtype : Option String) (env : List HttpResponse),
      (∀ m, («_get» s refreshOk (recordsUri zone_name rtype) env).result =
          .error (.recordsNotFound m) →
        (get_records s refreshOk zone_name rtype env).result =
          .ok (.json (.arr []))) ∧
      (∀ e, («_get» s refreshOk (recordsUri zone_name rtype) env).result = .error e →
        (∀ m, e ≠ .recordsNotFound m) →
        (get_records s refreshOk zone_name rtype env).result = .error e) := by
  intro s rOk zn rt env
  constructor
  · intro m h
    simp [get_records, h]
  · intro e h hne
    cases e <;> simp (disch := assumption) [get_records, h]
    case recordsNotFound m => exact absurd rfl (hne m)

/-- Witness for C9: a concrete filtered listing whose dispatcher call decodes
to `RecordsNotFoundError` (wire code 70002) yields the empty list. -/
theorem get_records_swallows_witness :
    («_get» ⟨false, []⟩ true (recordsUri "example.com" (some "A"))
        [⟨404, some (.obj [("errorCode", .num 70002),
          ("errorMessage", .str "nope")]), ""⟩]).result =
      .error (.recordsNotFound "nope") ∧
    (get_records ⟨false, []⟩ true "example.com" (some "A")
        [⟨404, some (.obj [("errorCode", .num 70002),
          ("errorMessage", .str "nope")]), ""⟩]).result =
      .ok (.json (.arr [])) :=
  ⟨rfl,
   (get_records_swallows_records_not_found ⟨false, []⟩ true "example.com" (some "A")
      [⟨404, some (.obj [("errorCode", .num 70002),
        ("errorMessage", .str "nope")]), ""⟩]).1 "nope" rfl⟩

/-- C10 counterexample.  `create_primary_zone` invoked while a transaction is
open does NOT return `None`: building `zone_properties` evaluates the
`_account_name` property, which issues a GET, so the call raises
`GetInsideTransactionError` instead. -/
theorem create_primary_zone_in_transaction_raises :
    (create_primary_zone ⟨true, []⟩ true "example.com" []).result =
      .error .getInsideTransaction ∧
    (create_primary_zone ⟨true, []⟩ true "example.com" []).result ≠ .ok .none :=
  ⟨rfl, fun h => nomatch h⟩

/-- C10, amended.  While a transaction is open, `delete_zone`,
`create_record`, `edit_record` and `delete_record` enqueue their operation,
issue no request and return `None` — the caller sees no per-operation server
result — whereas `create_primary_zone` raises `GetInsideTransactionError`
(it fetches the account name through a GET before posting). -/
theorem enqueued_writes_return_none :
    ∀ (s : ClientState) (refreshOk : Bool) (env : List HttpResponse)
      (zone_name rtype owner_name : String) (rdata : Json) (ttl : Option Json),
      s.transaction = true →
      (delete_zone s refreshOk zone_name env).result = .ok .none ∧
      (delete_zone s refreshOk zone_name env).requests = [] ∧
      (create_record s refreshOk zone_name rtype owner_name rdata ttl env).result
        = .ok .none ∧
      (create_record s refreshOk zone_name rtype owner_name rdata ttl env).requests
        = [] ∧
      (edit_record s refreshOk zone_name rtype owner_name rdata ttl env).result
        = .ok .none ∧
      (edit_record s refreshOk zone_name rtype owner_name rdata ttl env).requests
        = [] ∧
      (delete_record s refreshOk zone_name rtype owner_name env).result = .ok .none ∧
      (delete_record s refreshOk zone_name rtype owner_name env).requests = [] ∧
      (create_primary_zone s refreshOk zone_name env).result =
        .error .getInsideTransaction ∧
      (create_primary_zone s refreshOk zone_name env).requests = [] := by
  intro s rOk env zn rt ow rd ttl ht
  refine ⟨?_, ?_, ?_, ?_, ?_, ?_, ?_, ?_, ?_, ?_⟩ <;>
    simp [delete_zone, create_record, edit_record, delete_record,
      create_primary_zone, «_account_name», get_account_details,
      «_get», «_post», «_put», «_delete», «_request», ht]

/-- Witness for C10's amended statement at a concrete open state. -/
theorem enqueued_writes_return_none_witness :
    (⟨true, []⟩ : ClientState).transaction = true ∧
    ((delete_zone ⟨true, []⟩ true "z.com" []).result = .ok .none ∧
     (delete_zone ⟨true, []⟩ true "z.com" []).requests = [] ∧
     (create_record ⟨true, []⟩ true "z.com" "A" "www" (.str "1.2.3.4") none []).result
       = .ok .none ∧
     (create_record ⟨true, []⟩ true "z.com" "A" "www" (.str "1.2.3.4") none []).requests
       = [] ∧
     (edit_record ⟨true, []⟩ true "z.com" "A" "www" (.str "1.2.3.4") none []).result
       = .ok .none ∧
     (edit_record ⟨true, []⟩ true "z.com" "A" "www" (.str "1.2.3.4") none []).requests
       = [] ∧
     (delete_record ⟨true, []⟩ true "z.com" "A" "www" []).result = .ok .none ∧
     (delete_record ⟨true, []⟩ true "z.com" "A" "www" []).requests = [] ∧
     (create_primary_zone ⟨true, []⟩ true "z.com" []).result =
       .error .getInsideTransaction ∧
     (create_primary_zone ⟨true, []⟩ true "z.com" []).requests = []) :=
  ⟨rfl, enqueued_writes_return_none ⟨true, []⟩ true [] "z.com" "A" "www"
    (.str "1.2.3.4") none rfl⟩

/-- A write call under an open transaction only appends the pending operation:
it returns `None`, issues no request and leaves the oracle untouched. -/
theorem request_in_transaction (q : List TxQuery) (refreshOk : Bool)
    (m u : String) (d : Option Json) (env : List HttpResponse) :
    «_request» ⟨true, q⟩ refreshOk m u d env =
      ⟨.ok .none, ⟨true, q ++ [get_transaction_query_body m u d]⟩, env, []⟩ :=
  rfl

/-- Running a sequence of write calls under an open transaction appends their
pending operations in call order, with zero requests issued. -/
theorem runWrites_in_transaction (refreshOk : Bool) (env : List HttpResponse) :
    ∀ (ws : List WriteCall) (q : List TxQuery),
      runWrites refreshOk ⟨true, q⟩ env ws =
        (⟨true, q ++ ws.map (fun w => get_transaction_query_body w.method w.url w.data)⟩,
         env, []) := by
  intro ws
  induction ws with
  | nil => intro q; simp [runWrites]
  | cons w ws ih =>
    intro q
    have hstep : runWrites refreshOk ⟨true, q⟩ env (w :: ws) =
        runWrites refreshOk
          ⟨true, q ++ [get_transaction_query_body w.method w.url w.data]⟩ env ws := rfl
    rw [hstep, ih]
    simp [List.append_assoc]

/-- When the first oracle response is not a token-expiry response, `_do_call`
issues exactly its one request (whatever the outcome). -/
theorem do_call_requests_of_not_expired (t rOk : Bool) (m u : String)
    (d : Option Json) (r : HttpResponse) (env : List HttpResponse)
    (h : is_auth_token_expired r ≠ .ok true) :
    («_do_call» t rOk m u d (r :: env)).requests = [⟨m, u, d⟩] := by
  by_cases h204 : r.status = 204
  · simp [«_do_call», h204]
  · by_cases herr : is_error r = true
    · rcases hx : is_auth_token_expired r with e | b
      · simp [«_do_call», h204, herr, hx]
      · cases b
        · cases t <;> simp [«_do_call», h204, herr, hx]
        · exact absurd hx h
    · simp [«_do_call», h204, herr]

/-- C3.  A sequence of `N ≥ 1` write calls under an open transaction issues no
request at all, and the following commit issues exactly one `post` to
`/v1/batch` (the `requests` library upper-cases the method on the wire) whose
body is the JSON array of exactly the `N` queued operations, in call order,
each `{method, uri, body}` built from the original call — the method
upper-cased, and the body the call's payload or the empty object when the
call had none.  The oracle's answer to the batch call may be anything but a
token-expiry response (which would transparently repeat the request). -/
theorem commit_sends_single_batch_of_queued_writes :
    ∀ (refreshOk : Bool) (ws : List WriteCall) (r : HttpResponse)
      (env : List HttpResponse),
      ws ≠ [] →
      is_auth_token_expired r ≠ .ok true →
      (runWrites refreshOk ⟨true, []⟩ (r :: env) ws).2.2 = [] ∧
      (commit_transaction (runWrites refreshOk ⟨true, []⟩ (r :: env) ws).1
          refreshOk (runWrites refreshOk ⟨true, []⟩ (r :: env) ws).2.1).requests =
        [⟨"post", "/v1/batch",
          some (.arr (ws.map (fun w =>
            Json.obj [("method", .str w.method.toUpper), ("uri", .str w.url),
                      ("body", match w.data with
                               | none => Json.obj []
                               | some d => if jsonTruthy d then d
                                           else Json.obj [])])))⟩] := by
  intro rOk ws r env hws hr
  rw [runWrites_in_transaction]
  refine ⟨rfl, ?_⟩
  obtain ⟨w, ws', rfl⟩ := List.exists_cons_of_ne_nil hws
  have h1 : (commit_transaction
      ⟨true, [] ++ (w :: ws').map
        (fun v => get_transaction_query_body v.method v.url v.data)⟩
      rOk (r :: env)).requests =
      («_do_call» true rOk "post" "/v1/batch"
        (some (.arr (((w :: ws').map
          (fun v => get_transaction_query_body v.method v.url v.data)).map
            txQueryToJson))) (r :: env)).requests := rfl
  rw [h1, do_call_requests_of_not_expired true rOk "post" "/v1/batch" _ r env hr,
    List.map_map]
  rfl

/-- Witness for C3: two concrete writes (a POST with a body and a bodyless
DELETE) queued and committed against a plain success response produce the one
batch request with both items in order, the DELETE's body being `{}`. -/
theorem commit_sends_single_batch_witness :
    ([⟨"POST", "/v1/x", some (.obj [("k", .str "v")])⟩,
      ⟨"DELETE", "/v1/y", none⟩] : List WriteCall) ≠ [] ∧
    is_auth_token_expired okResponse ≠ .ok true ∧
    ((runWrites true ⟨true, []⟩ [okResponse]
        [⟨"POST", "/v1/x", some (.obj [("k", .str "v")])⟩,
         ⟨"DELETE", "/v1/y", none⟩]).2.2 = [] ∧
     (commit_transaction (runWrites true ⟨true, []⟩ [okResponse]
          [⟨"POST", "/v1/x", some (.obj [("k", .str "v")])⟩,
           ⟨"DELETE", "/v1/y", none⟩]).1 true
         (runWrites true ⟨true, []⟩ [okResponse]
          [⟨"POST", "/v1/x", some (.obj [("k", .str "v")])⟩,
           ⟨"DELETE", "/v1/y", none⟩]).2.1).requests =
       [⟨"post", "/v1/batch",
         some (.arr (([⟨"POST", "/v1/x", some (.obj [("k", .str "v")])⟩,
            ⟨"DELETE", "/v1/y", none⟩] : List WriteCall).map (fun w =>
          Json.obj [("method", .str w.method.toUpper), ("uri", .str w.url),
                    ("body", match w.data with
                             | none => Json.obj []
                             | some d => if jsonTruthy d then d
                                         else Json.obj [])])))⟩]) :=
  ⟨List.cons_ne_nil _ _,
   (fun h => nomatch h : is_auth_token_expired okResponse ≠ .ok true),
   commit_sends_single_batch_of_queued_writes true
     [⟨"POST", "/v1/x", some (.obj [("k", .str "v")])⟩,
      ⟨"DELETE", "/v1/y", none⟩] okResponse []
     (List.cons_ne_nil _ _)
     (fun h => nomatch h : is_auth_token_expired okResponse ≠ .ok true)⟩

end UltraDNS
